import Mathlib

/-!
# Verification of the Ride-Share Application's validation/orchestration layer

Shallow embedding of the two Flask microservices (`Final_Project/Users`,
`Final_Project/Rides`).  Pure validators become Lean functions over `String`;
failure (`raise`) becomes `Except`; each route handler becomes a function from
the request, an oracle for the external HTTP responses, and the mutable
process-wide counters to the produced response, the updated counters and the
list of outbound calls it issued.

Python-specific semantics that the code relies on and that we embed explicitly:
* `re.match`/`re.search` with a pattern of the form `^...$` (no MULTILINE):
  `$` also matches just before a single trailing `'\n'` (`reFullMatch`).
* `str.strip()` removes leading and trailing whitespace (`pyStrip`).
* `datetime.strptime(s, "%d-%m-%Y:%S-%M-%H")`: CPython's `_strptime` compiles
  each directive to a digit-run regex (`%d` = 1-2 digits valued 1..31, `%m` =
  1-2 digits valued 1..12, `%Y` = exactly 4 digits, `%S` = 1 digit or 2 digits
  valued 0..61, `%M` = 1 digit or 2 digits valued 0..59, `%H` = 1 digit or
  2 digits valued 0..23), requires the whole string to be consumed, and the
  final `datetime(...)` constructor additionally checks 1 ≤ year ≤ 9999,
  day ≤ days-in-month and second ≤ 59 (`strptime_dmY_SMH`).
* Flask dispatch: `before_request` runs after URL matching but before the
  handler; an exception it raises is routed through the registered error
  handlers.  Both services register `errorhandler(Exception)` and
  `errorhandler(BadRequest)`; the services' own `ValidationError` derives from
  `Exception` (not from `werkzeug.BadRequest`), so an uncaught
  `ValidationError` — and any `HTTPException` such as a routing 404/405 —
  is answered by the generic handler with a 500 "Internal server error".
-/

/-! ## Python character/string primitives -/

/-- `[a-zA-Z0-9_]`, the character class of the username regexes. -/
def isWordChar (c : Char) : Bool :=
  c.isAlpha || c.isDigit || c == '_'

/-- `[a-fA-F0-9]`, the character class of the SHA1 regexes. -/
def isHexChar (c : Char) : Bool :=
  c.isDigit || ('a' ≤ c && c ≤ 'f') || ('A' ≤ c && c ≤ 'F')

/-- The whitespace set of Python's default `str.strip()` (restricted to the
ASCII whitespace characters: space, tab, newline, carriage return, vertical
tab, form feed). -/
def isPySpace (c : Char) : Bool :=
  c == ' ' || c == '\t' || c == '\n' || c == '\r' || c == '\x0b' || c == '\x0c'

/-- Characters of a list, dropped from the front while they are Python
whitespace. -/
def pyDropSpace (l : List Char) : List Char := l.dropWhile isPySpace

/-- Python `str.strip()` on the character list: drop whitespace from both
ends. -/
def pyStripChars (l : List Char) : List Char :=
  ((pyDropSpace l).reverse.dropWhile isPySpace).reverse

/-- Python `str.strip()`. -/
def pyStrip (s : String) : String := ⟨pyStripChars s.data⟩

/-- Python `re.match`/`re.search` against an anchored pattern `^core$` whose
core cannot match `'\n'`: the match succeeds on `s` itself, or on `s` minus a
single final newline (because `$` also matches just before a trailing
newline). -/
def reFullMatch (core : List Char → Bool) (s : String) : Bool :=
  core s.data || (s.data.getLast? == some '\n' && core s.data.dropLast)

/-- Core of `^[a-zA-Z0-9_]+$`. -/
def wordPlusCore (l : List Char) : Bool := !l.isEmpty && l.all isWordChar

/-- Core of `^[a-fA-F0-9]{40}$`. -/
def sha1Core (l : List Char) : Bool := l.length == 40 && l.all isHexChar

/-- Core of `^\d{2}-\d{2}-\d{4}:\d{2}-\d{2}-\d{2}$` (the new-style timestamp
pattern): exactly the literal shape `DD-MM-YYYY:SS-MM-HH`. -/
def tsPatternCore (l : List Char) : Bool :=
  match l with
  | [a, b, '-', c, d, '-', e, f, g, h, ':', i, j, '-', k, l1, '-', m, n] =>
      [a, b, c, d, e, f, g, h, i, j, k, l1, m, n].all Char.isDigit
  | _ => false

/-- Nonempty all-digit run. -/
def digitRun (l : List Char) : Bool := !l.isEmpty && l.all Char.isDigit

/-- Decimal value of a digit run. -/
def decVal (l : List Char) : Nat :=
  l.foldl (fun a c => 10 * a + (c.toNat - 48)) 0

/-- Python `int(str)` on a decimal literal: surrounding whitespace stripped,
one optional sign, then a nonempty digit run.  (Underscore digit grouping is
not modelled; no input in this development uses it.) -/
def pyIntOfString (s : String) : Option Int :=
  match pyStripChars s.data with
  | '-' :: ds => if digitRun ds then some (-(decVal ds : Int)) else none
  | '+' :: ds => if digitRun ds then some (decVal ds) else none
  | ds => if digitRun ds then some (decVal ds) else none

/-- `needle` starts `hay`. -/
def listStarts : List Char → List Char → Bool
  | [], _ => true
  | _ :: _, [] => false
  | a :: as, b :: bs => a == b && listStarts as bs

/-- `needle` occurs somewhere inside `hay` (Python `needle in hay` on
strings). -/
def listHasInfix (needle : List Char) : List Char → Bool
  | [] => listStarts needle []
  | b :: bs => listStarts needle (b :: bs) || listHasInfix needle bs

/-- Python's `in` operator on strings. -/
def pyInStr (needle hay : String) : Bool := listHasInfix needle.data hay.data

/-! ## JSON-ish values (the payloads exchanged by the services) -/

/-- The JSON values the services exchange (`null`/`bool`/`float` never occur
on the modelled paths). -/
inductive PyVal where
  | str : String → PyVal
  | int : Int → PyVal
  | arr : List PyVal → PyVal
  | obj : List (String × PyVal) → PyVal

/-- A parsed JSON object body (Python `dict`). -/
abbrev Dict := List (String × PyVal)

/-- `d[k]` / `k in d`: first binding of key `k` (Python dicts cannot have
duplicate keys, so first-wins lookup is exact). -/
def dget (k : String) : Dict → Option PyVal
  | [] => none
  | (k', v) :: rest => if k = k' then some v else dget k rest

/-- Python truthiness (`if not x`) on the modelled values. -/
def pyFalsy : PyVal → Bool
  | .str s => s == ""
  | .int n => n == 0
  | .arr xs => xs.isEmpty
  | .obj kvs => kvs.isEmpty

/-- Whether Python's `len(v)` is defined: sequences and mappings have a
length, a bare number makes `len` raise `TypeError`. -/
def pyHasLen : PyVal → Bool
  | .str _ => true
  | .int _ => false
  | .arr _ => true
  | .obj _ => true

mutual
/-- Python `str()` of a value, as used by the services' f-strings.  Faithful
for strings and integers (the only values the verified paths render);
containers are rendered in Python's bracketed style with `str` applied to
elements (Python uses `repr`, which additionally quotes nested strings —
no modelled message renders a container). -/
def pyStr : PyVal → String
  | .str s => s
  | .int n => toString n
  | .arr xs => "[" ++ pyStrL xs ++ "]"
  | .obj kvs => "\x7b" ++ pyStrKV kvs ++ "\x7d"

/-- Comma-joined rendering of a list of values. -/
def pyStrL : List PyVal → String
  | [] => ""
  | [v] => pyStr v
  | v :: rest => pyStr v ++ ", " ++ pyStrL rest

/-- Comma-joined rendering of key/value pairs. -/
def pyStrKV : List (String × PyVal) → String
  | [] => ""
  | [(k, v)] => "'" ++ k ++ "': " ++ pyStr v
  | (k, v) :: rest => "'" ++ k ++ "': " ++ pyStr v ++ ", " ++ pyStrKV rest
end

/-! ## `datetime.strptime` with format `"%d-%m-%Y:%S-%M-%H"` -/

/-- A `datetime.datetime` (only the fields the format mentions). -/
structure PyDatetime where
  year : Nat
  month : Nat
  day : Nat
  hour : Nat
  minute : Nat
  second : Nat
deriving DecidableEq, Repr

/-- Gregorian leap year, as in Python's `datetime`. -/
def isLeapYear (y : Nat) : Bool :=
  y % 4 == 0 && (y % 100 != 0 || y % 400 == 0)

/-- Days in a month, as in Python's `datetime`. -/
def daysInMonth (y m : Nat) : Nat :=
  if m == 2 then (if isLeapYear y then 29 else 28)
  else if m == 4 || m == 6 || m == 9 || m == 11 then 30
  else 31

/-- The range checks of the `datetime(...)` constructor (minute ≤ 59 and
hour ≤ 23 are already guaranteed by the directive regexes, but `%S` admits
the leap-second values 60/61 which `datetime` rejects). -/
def datetimeCtor (year month day hour minute second : Nat) : Option PyDatetime :=
  if 1 ≤ year && year ≤ 9999 && 1 ≤ month && month ≤ 12 &&
     1 ≤ day && day ≤ daysInMonth year month &&
     hour ≤ 23 && minute ≤ 59 && second ≤ 59 then
    some ⟨year, month, day, hour, minute, second⟩
  else none

/-- `%d`: `(3[01]|[12]\d|0[1-9]|[1-9])` — one digit 1-9 or two digits valued
1..31. -/
def dayRun (l : List Char) : Bool :=
  digitRun l &&
    ((l.length == 1 && 1 ≤ decVal l) || (l.length == 2 && 1 ≤ decVal l && decVal l ≤ 31))

/-- `%m`: `(1[0-2]|0[1-9]|[1-9])` — one digit 1-9 or two digits valued
1..12. -/
def monthRun (l : List Char) : Bool :=
  digitRun l &&
    ((l.length == 1 && 1 ≤ decVal l) || (l.length == 2 && 1 ≤ decVal l && decVal l ≤ 12))

/-- `%Y`: `\d\d\d\d` — exactly four digits. -/
def yearRun (l : List Char) : Bool := digitRun l && l.length == 4

/-- `%S`: `(6[0-1]|[0-5]\d|\d)` — one digit, or two digits valued 0..61. -/
def secondRun (l : List Char) : Bool :=
  digitRun l && ((l.length == 1) || (l.length == 2 && decVal l ≤ 61))

/-- `%M`: `([0-5]\d|\d)` — one digit, or two digits valued 0..59. -/
def minuteRun (l : List Char) : Bool :=
  digitRun l && ((l.length == 1) || (l.length == 2 && decVal l ≤ 59))

/-- `%H`: `(2[0-3]|[0-1]\d|\d)` — one digit, or two digits valued 0..23. -/
def hourRun (l : List Char) : Bool :=
  digitRun l && ((l.length == 1) || (l.length == 2 && decVal l ≤ 23))

/-- Split a character list at every occurrence of `sep` (the single-char
case of Python's `str.split(sep)`). -/
def splitOnChar (sep : Char) : List Char → List (List Char)
  | [] => [[]]
  | c :: rest =>
    match splitOnChar sep rest with
    | [] => if c = sep then [[], []] else [[c]]
    | h :: t => if c = sep then [] :: h :: t else (c :: h) :: t

/-- `datetime.strptime(s, "%d-%m-%Y:%S-%M-%H")`.  Because every directive
matches only digits and the literal separators `-`/`:` are not digits, the
compiled regex matches the whole string exactly when it splits as
`D-M-Y:S-M-H` with each digit run accepted by its directive; `datetime(...)`
then applies the calendar checks. -/
def strptime_dmY_SMH (s : String) : Option PyDatetime :=
  match splitOnChar ':' s.data with
  | [lhs, rhs] =>
    match splitOnChar '-' lhs, splitOnChar '-' rhs with
    | [d, mo, y], [se, mi, h] =>
      if dayRun d && monthRun mo && yearRun y &&
         secondRun se && minuteRun mi && hourRun h then
        datetimeCtor (decVal y) (decVal mo) (decVal d)
          (decVal h) (decVal mi) (decVal se)
      else none
    | _, _ => none
  | _ => none

/-- Two-digit zero padding (`%d`, `%m`, `%S`, `%M`, `%H` in `strftime`). -/
def pad2 (n : Nat) : String := if n < 10 then "0" ++ toString n else toString n

/-- `dt.strftime("%d-%m-%Y:%S-%M-%H")` (`%Y` does not pad; every strptime
result has a 4-digit year anyway). -/
def strftime_dmY_SMH (dt : PyDatetime) : String :=
  pad2 dt.day ++ "-" ++ pad2 dt.month ++ "-" ++ toString dt.year ++ ":" ++
    pad2 dt.second ++ "-" ++ pad2 dt.minute ++ "-" ++ pad2 dt.hour

/-! ## Canonical response envelopes (`utils/response_helpers.py`, identical in
both services) -/

/-- The JSON body of a response: the success envelope (`data`/`message`, each
omitted when not supplied) or the error envelope
`{error: {message, status_code}}` (no handler passes `code`/`details`). -/
inductive RespBody where
  | envelope : Option PyVal → Option String → RespBody
  | errorEnv : String → Nat → RespBody

/-- An HTTP response of the service. -/
structure HttpResponse where
  status_code : Nat
  body : RespBody

/-- `create_response(data, message, status_code)`: `data` kept when not
`None`, `message` kept when truthy. -/
def create_response (data : Option PyVal := none) (message : Option String := none)
    (status_code : Nat := 200) : HttpResponse :=
  { status_code := status_code,
    body := .envelope data
      (match message with
       | some m => if m = "" then none else some m
       | none => none) }

/-- `create_error_response(message, status_code)`. -/
def create_error_response (message : String) (status_code : Nat := 400) : HttpResponse :=
  { status_code := status_code, body := .errorEnv message status_code }

/-! ## Shared service state -/

/-- `ServiceMetrics` (identical dataclass in both services). -/
structure ServiceMetrics where
  total_requests : Nat := 0
  successful_requests : Nat := 0
  failed_requests : Nat := 0
deriving DecidableEq, Repr

/-- `metrics.total_requests += 1`. -/
def totalBump (m : ServiceMetrics) : ServiceMetrics :=
  { m with total_requests := m.total_requests + 1 }

/-- `metrics.successful_requests += 1`. -/
def succBump (m : ServiceMetrics) : ServiceMetrics :=
  { m with successful_requests := m.successful_requests + 1 }

/-- `metrics.failed_requests += 1`. -/
def failBump (m : ServiceMetrics) : ServiceMetrics :=
  { m with failed_requests := m.failed_requests + 1 }

/-- The process-wide mutable state of one service: the raw HTTP request
counter and the metrics object. -/
structure ServiceState where
  http_request_counter : Nat
  metrics : ServiceMetrics
deriving DecidableEq, Repr

/-- One response from an external HTTP collaborator (database or peer
service): the status code, the raw text, and the parsed JSON body —
`none` models a body on which `.json()` raises. -/
structure ExtResponse where
  status_code : Nat
  text : String
  jsonBody : Option PyVal

/-- The HTTP method of an inbound request. -/
inductive Method where
  | GET | PUT | POST | DELETE
deriving DecidableEq, Repr

/-- The Python exceptions the request classes raise. -/
inductive PyExc where
  | validationError (msg : String)
  | badRequest (msg : String)
  | typeError
deriving DecidableEq, Repr

/-- `str(e)` for a `werkzeug.BadRequest` carries the code/name prefix. -/
def badRequestText (msg : String) : String := "400 Bad Request: " ++ msg

/-- `str(e)` for a `werkzeug.NotFound`. -/
def notFoundText (msg : String) : String := "404 Not Found: " ++ msg

/-- `str(e)` for the `BadRequest` raised by `request.get_json()` on a
syntactically invalid JSON body. -/
def getJsonFailureText : String :=
  badRequestText "The browser (or proxy) sent a request that this server could not understand."

/-! ## User service (`Final_Project/Users`) -/

namespace Users

/-- `utils/validators.py: validate_username`.  The guards in source order:
falsy, empty after strip, length over 50, then
`re.match(r'^[a-zA-Z0-9_]+$', username)`; the trimmed value is returned.
(The `isinstance(username, str)` guard is vacuous here because the argument
is already a `String`; `validate_username_py` below handles non-string JSON
values.) -/
def validate_username (username : String) : Except String String :=
  if username = "" then .error "Username is required"
  else if pyStrip username = "" then .error "Username cannot be empty"
  else if 50 < username.length then .error "Username too long (max 50 characters)"
  else if !reFullMatch wordPlusCore username then
    .error "Username can only contain letters, numbers, and underscores"
  else .ok (pyStrip username)

/-- `utils/validators.py: validate_password`: falsy guard, then
`re.compile(r'^[a-fA-F0-9]{40}$').match(password)`; returns the password
unchanged. -/
def validate_password (password : String) : Except String String :=
  if password = "" then .error "Password is required"
  else if !reFullMatch sha1Core password then
    .error "Password must be a valid SHA1 hash (40 hexadecimal characters)"
  else .ok password

/-- `validate_username` applied to a raw JSON value: Python first evaluates
`if not username` (truthiness), then `isinstance(username, str)`. -/
def validate_username_py (v : PyVal) : Except String String :=
  if pyFalsy v then .error "Username is required"
  else
    match v with
    | .str s => validate_username s
    | _ => .error "Username must be a string"

/-- `validate_password` applied to a raw JSON value. -/
def validate_password_py (v : PyVal) : Except String String :=
  if pyFalsy v then .error "Password is required"
  else
    match v with
    | .str s => validate_password s
    | _ => .error "Password must be a string"

/-- `user_requests.py: CreateUserRequest` — the new-style dataclass; both
fields are strings after successful validation. -/
structure CreateUserRequest where
  username : String
  password : String
deriving DecidableEq, Repr

/-- `CreateUserRequest(username=..., password=...)`: `__post_init__` runs
`validate`, which revalidates both fields and wraps any `ValidationError`
message in `"Invalid user data: ..."`. -/
def CreateUserRequest.create (username password : PyVal) : Except String CreateUserRequest :=
  match validate_username_py username with
  | .error e => .error ("Invalid user data: " ++ e)
  | .ok u =>
    match validate_password_py password with
    | .error e => .error ("Invalid user data: " ++ e)
    | .ok p => .ok ⟨u, p⟩

/-- `CreateUserRequest.from_dict`: required-field check (missing fields
listed in declaration order), then construction/validation. -/
def CreateUserRequest.from_dict (data : Dict) : Except String CreateUserRequest :=
  match dget "username" data, dget "password" data with
  | none, none => .error "Missing required fields: username, password"
  | none, some _ => .error "Missing required fields: username"
  | some _, none => .error "Missing required fields: password"
  | some u, some p => CreateUserRequest.create u p

/-- `CreateUserRequest.to_dict`. -/
def CreateUserRequest.to_dict (r : CreateUserRequest) : Dict :=
  [("username", .str r.username), ("password", .str r.password)]

/-- Two JSON objects are equal as Python dicts: same value (or absence) at
every key. -/
def dictEquiv (d1 d2 : Dict) : Prop := ∀ k, dget k d1 = dget k d2

/-- `user_requests.py: CreateUserRequests` — the legacy class used by the
`PUT /api/v1/users` handler.  `_username` is stored exactly as it appears in
the JSON body (no validation at all); `_password` passed the SHA1 regex. -/
structure CreateUserRequests where
  _username : PyVal
  _password : String

/-- Legacy `CreateUserRequests.validatePassword`:
`re.compile("^[a-fA-F0-9]{40}$").search(password)` (with `^` this is the
same predicate as `match`) raising `werkzeug.BadRequest` on failure, and a
`TypeError` if the JSON value is not a string. -/
def CreateUserRequests.validatePassword (password : PyVal) : Except PyExc String :=
  match password with
  | .str p =>
      if !reFullMatch sha1Core p then .error (.badRequest "Password is not in SHA1 format")
      else .ok p
  | _ => .error .typeError

/-- Legacy `CreateUserRequests.__init__`: presence of `username` and
`password`, then `validatePassword`; the username is stored unvalidated. -/
def CreateUserRequests.ofJson (json_data : Dict) : Except PyExc CreateUserRequests :=
  match dget "username" json_data with
  | none => .error (.badRequest "Username not passed in the request")
  | some u =>
    match dget "password" json_data with
    | none => .error (.badRequest "Password not passed in the request")
    | some p =>
      match CreateUserRequests.validatePassword p with
      | .error e => .error e
      | .ok pw => .ok ⟨u, pw⟩

/-- `getUsername` (the raw JSON value). -/
def CreateUserRequests.getUsername (r : CreateUserRequests) : PyVal := r._username

/-- `getPassword`. -/
def CreateUserRequests.getPassword (r : CreateUserRequests) : String := r._password

/-- An outbound call of the user service to the database HTTP API:
`POST .../db/read` or `POST .../db/write` with `{action, ...params}`. -/
inductive DbCall where
  | read (action : String) (params : Dict)
  | write (action : String) (params : Dict)

/-- `main_user.py: add_user` (`PUT /api/v1/users`).  `env n` is the response
to the n-th outbound HTTP call of this request.  Returns the response, the
updated metrics, and the outbound calls issued.  Exception routing follows
the source: `ValidationError`/`BadRequest` → 400 with `str(e)`; anything
else (`TypeError` from the legacy validator, `InternalServerError`) → 500. -/
def add_user (is_json : Bool) (body? : Option Dict) (env : Nat → ExtResponse)
    (m : ServiceMetrics) : HttpResponse × ServiceMetrics × List DbCall :=
  let m := totalBump m
  if !is_json then
    (create_error_response "Content-Type must be application/json" 400, failBump m, [])
  else
    match body? with
    | none => (create_error_response getJsonFailureText 400, failBump m, [])
    | some body =>
      if body.isEmpty then
        (create_error_response "Request body is required" 400, failBump m, [])
      else
        match CreateUserRequests.ofJson body with
        | .error (.badRequest msg) =>
            (create_error_response (badRequestText msg) 400, failBump m, [])
        | .error (.validationError msg) =>
            (create_error_response msg 400, failBump m, [])
        | .error .typeError =>
            (create_error_response "Internal server error" 500, failBump m, [])
        | .ok ur =>
          let c0 := DbCall.read "get_user" [("username", ur.getUsername)]
          if (env 0).status_code = 200 then
            (create_error_response ("User " ++ pyStr ur.getUsername ++ " already exists") 400,
             failBump m, [c0])
          else
            let c1 := DbCall.write "add_user"
              [("username", ur.getUsername), ("password", .str ur.getPassword)]
            if (env 1).status_code ≠ 200 then
              (create_error_response "Internal server error" 500, failBump m, [c0, c1])
            else
              (create_response none (some "User created successfully") 201,
               succBump m, [c0, c1])

/-- `main_user.py: delete_user` (`DELETE /api/v1/users/<username>`).  The
`NotFound` raised when the read is not 200 is caught by the handler's
`except (ValidationError, NotFound)` and answered 400 with `str(e)`. -/
def delete_user (username : String) (env : Nat → ExtResponse)
    (m : ServiceMetrics) : HttpResponse × ServiceMetrics × List DbCall :=
  let m := totalBump m
  if username = "" then
    (create_error_response "Username is required" 400, failBump m, [])
  else
    let c0 := DbCall.read "get_user" [("username", .str username)]
    if (env 0).status_code ≠ 200 then
      (create_error_response (notFoundText ("User " ++ username ++ " not found")) 400,
       failBump m, [c0])
    else
      let c1 := DbCall.write "delete_user" [("username", .str username)]
      if (env 1).status_code ≠ 200 then
        (create_error_response "Internal server error" 500, failBump m, [c0, c1])
      else
        (create_response none (some "User deleted successfully") 200, succBump m, [c0, c1])

/-- `main_user.py: list_users` (`GET /api/v1/users`).  A non-200 read or a
body on which `.json()` raises reaches the generic `except` → 500 with
`failed_requests` +1.  When the body parses, the source increments
`successful_requests` *before* evaluating `len(users)` in the log line; on a
bare JSON number `len` then raises `TypeError`, so the generic `except`
increments `failed_requests` as well — both counters move. -/
def list_users (env : Nat → ExtResponse) (m : ServiceMetrics) :
    HttpResponse × ServiceMetrics × List DbCall :=
  let m := totalBump m
  let c0 := DbCall.read "list_users" []
  if (env 0).status_code ≠ 200 then
    (create_error_response "Internal server error" 500, failBump m, [c0])
  else
    match (env 0).jsonBody with
    | none => (create_error_response "Internal server error" 500, failBump m, [c0])
    | some (.int _) =>
        (create_error_response "Internal server error" 500, failBump (succBump m), [c0])
    | some users => (create_response (some users) none 200, succBump m, [c0])

/-- The URL space of the user service. -/
inductive UserPath where
  | users
  | userByName (username : String)
  | count
  | health
  | metricsEp
  | root
  | unmatched
deriving DecidableEq, Repr

/-- An inbound HTTP request to the user service. -/
structure UserReq where
  method : Method
  path : UserPath
  is_json : Bool
  body : Option Dict

/-- `config.VERSION` default. -/
def configVersion : String := "1.0.0"

/-- Full request dispatch for the user service.  Order follows Flask:
URL matching, then `before_request_handler` (HTTP-counter increment and, for
PUT/POST, the content-type check whose `ValidationError` is answered by
`errorhandler(Exception)` with a 500), then the route handler; an unmatched
URL or method raises an `HTTPException` that the same generic handler
answers with a 500. -/
def userDispatch (req : UserReq) (env : Nat → ExtResponse) (st : ServiceState) :
    HttpResponse × ServiceState × List DbCall :=
  let counter := st.http_request_counter + 1
  if (req.method = .PUT ∨ req.method = .POST) ∧ req.is_json = false then
    (create_error_response "Internal server error" 500, ⟨counter, st.metrics⟩, [])
  else
    match req.method, req.path with
    | .PUT, .users =>
        let r := add_user req.is_json req.body env st.metrics
        (r.1, ⟨counter, r.2.1⟩, r.2.2)
    | .DELETE, .userByName u =>
        let r := delete_user u env st.metrics
        (r.1, ⟨counter, r.2.1⟩, r.2.2)
    | .GET, .users =>
        let r := list_users env st.metrics
        (r.1, ⟨counter, r.2.1⟩, r.2.2)
    | .GET, .count =>
        (create_response (some (.arr [.int (counter : Int)])) none 200,
         ⟨counter, st.metrics⟩, [])
    | .DELETE, .count =>
        (create_response none (some "Request counter reset successfully") 200,
         ⟨0, st.metrics⟩, [])
    | .GET, .health =>
        (create_response
          (some (.obj [("status", .str "healthy"), ("service", .str "user-service"),
                       ("version", .str configVersion)])) none 200,
         ⟨counter, st.metrics⟩, [])
    | .GET, .metricsEp =>
        (create_response
          (some (.obj [("total_requests", .int (st.metrics.total_requests : Int)),
                       ("successful_requests", .int (st.metrics.successful_requests : Int)),
                       ("failed_requests", .int (st.metrics.failed_requests : Int)),
                       ("http_request_counter", .int (counter : Int))])) none 200,
         ⟨counter, st.metrics⟩, [])
    | .GET, .root =>
        (create_response
          (some (.obj [("service", .str "user-service"), ("version", .str configVersion),
                       ("endpoints",
                        .arr [.str "PUT /api/v1/users", .str "DELETE /api/v1/users/<username>",
                              .str "GET /api/v1/users", .str "GET /api/v1/_count",
                              .str "DELETE /api/v1/_count", .str "GET /health",
                              .str "GET /metrics"])])) none 200,
         ⟨counter, st.metrics⟩, [])
    | _, _ =>
        (create_error_response "Internal server error" 500, ⟨counter, st.metrics⟩, [])

end Users

/-! ## Ride service (`Final_Project/Rides`) -/

namespace Rides

/-- `utils/validators.py: validate_username` — textually identical to the
user-service copy (the duplication the spec's §9 records). -/
def validate_username (username : String) : Except String String :=
  if username = "" then .error "Username is required"
  else if pyStrip username = "" then .error "Username cannot be empty"
  else if 50 < username.length then .error "Username too long (max 50 characters)"
  else if !reFullMatch wordPlusCore username then
    .error "Username can only contain letters, numbers, and underscores"
  else .ok (pyStrip username)

/-- `utils/validators.py: validate_timestamp_format` — the new-style
timestamp validator: falsy guard then
`re.compile(r'^\d{2}-\d{2}-\d{4}:\d{2}-\d{2}-\d{2}$').match(timestamp)`;
returns the string unchanged. -/
def validate_timestamp_format (timestamp : String) : Except String String :=
  if timestamp = "" then .error "Timestamp is required"
  else if !reFullMatch tsPatternCore timestamp then
    .error "Invalid timestamp format. Please use DD-MM-YYYY:SS-MM-HH"
  else .ok timestamp

/-- Legacy `CreateRideRequests.validateSource`: `int(source)` (a `ValueError`
or `TypeError` is caught), then the 1..198 range check, all failures mapped
to `BadRequest("Invalid source passed")`. -/
def validateSource (source : PyVal) : Except PyExc Int :=
  let fail : Except PyExc Int := .error (.badRequest "Invalid source passed")
  match source with
  | .int n => if n < 1 ∨ 198 < n then fail else .ok n
  | .str s =>
      match pyIntOfString s with
      | none => fail
      | some n => if n < 1 ∨ 198 < n then fail else .ok n
  | _ => fail

/-- Legacy `CreateRideRequests.validateDestination` (same body, different
message). -/
def validateDestination (destination : PyVal) : Except PyExc Int :=
  let fail : Except PyExc Int := .error (.badRequest "Invalid destination passed")
  match destination with
  | .int n => if n < 1 ∨ 198 < n then fail else .ok n
  | .str s =>
      match pyIntOfString s with
      | none => fail
      | some n => if n < 1 ∨ 198 < n then fail else .ok n
  | _ => fail

/-- Legacy `CreateRideRequests.validateTimestamp`:
`datetime.strptime(timestamp, "%d-%m-%Y:%S-%M-%H")`, with `except Exception`
mapping every failure (including a non-string value) to
`BadRequest(f"Invalid timestamp {timestamp}. ...")`. -/
def validateTimestamp (timestamp : PyVal) : Except PyExc PyDatetime :=
  let fail : Except PyExc PyDatetime :=
    .error (.badRequest
      ("Invalid timestamp " ++ pyStr timestamp ++ ". Please use the format DD-MM-YYYY:SS-MM-HH"))
  match timestamp with
  | .str s =>
      match strptime_dmY_SMH s with
      | some dt => .ok dt
      | none => fail
  | _ => fail

/-- Legacy `CreateRideRequests` — the class the `POST /api/v1/rides` handler
uses.  `_created_by` is stored exactly as it appears in the body (no
username validation on this path). -/
structure CreateRideRequests where
  _created_by : PyVal
  _source : Int
  _destination : Int
  _timestamp : PyDatetime

/-- Legacy `CreateRideRequests.__init__`: presence checks in source order
(`created_by`, `timestamp`, `source`, `destination`), then
`validateSource`, `validateDestination`, `validateTimestamp`. -/
def CreateRideRequests.ofJson (json_data : Dict) : Except PyExc CreateRideRequests :=
  match dget "created_by" json_data with
  | none => .error (.badRequest "Created_by not passed in the request")
  | some cb =>
  match dget "timestamp" json_data with
  | none => .error (.badRequest "Timestamp not passed in the request")
  | some ts =>
  match dget "source" json_data with
  | none => .error (.badRequest "Source not passed in the request")
  | some src =>
  match dget "destination" json_data with
  | none => .error (.badRequest "Destination not passed in the request")
  | some dst =>
  match validateSource src with
  | .error e => .error e
  | .ok s =>
  match validateDestination dst with
  | .error e => .error e
  | .ok d =>
  match validateTimestamp ts with
  | .error e => .error e
  | .ok t => .ok ⟨cb, s, d, t⟩

/-- An outbound call of the ride service: `GET` of the user service's list
endpoint (the existence check), or a database read/write. -/
inductive RideCall where
  | userGet (params : Dict)
  | read (action : String) (params : Dict)
  | write (action : String) (params : Dict)

/-- `main_rides.py: add_ride` (`POST /api/v1/rides`).  The existence check is
`ride_request.getCreatedBy() not in response.text` — a substring test on the
peer service's raw body.  `metrics.successful_requests += 1` happens *before*
`response.json()` is evaluated for the 201 payload, so a 200 write response
whose body fails to parse increments both counters. -/
def add_ride (is_json : Bool) (body? : Option Dict) (env : Nat → ExtResponse)
    (m : ServiceMetrics) : HttpResponse × ServiceMetrics × List RideCall :=
  let m := totalBump m
  if !is_json then
    (create_error_response "Content-Type must be application/json" 400, failBump m, [])
  else
    match body? with
    | none => (create_error_response getJsonFailureText 400, failBump m, [])
    | some body =>
      if body.isEmpty then
        (create_error_response "Request body is required" 400, failBump m, [])
      else
        match CreateRideRequests.ofJson body with
        | .error (.badRequest msg) =>
            (create_error_response (badRequestText msg) 400, failBump m, [])
        | .error (.validationError msg) =>
            (create_error_response msg 400, failBump m, [])
        | .error .typeError =>
            (create_error_response "Internal server error" 500, failBump m, [])
        | .ok rr =>
          let c0 := RideCall.userGet [("username", rr._created_by)]
          match rr._created_by with
          | .str cb =>
            if !pyInStr cb (env 0).text then
              (create_error_response ("User " ++ cb ++ " not found") 400, failBump m, [c0])
            else
              let c1 := RideCall.write "add_ride"
                [("created_by", .str cb), ("source", .int rr._source),
                 ("destination", .int rr._destination),
                 ("timestamp", .str (strftime_dmY_SMH rr._timestamp))]
              if (env 1).status_code ≠ 200 then
                (create_error_response "Internal server error" 500, failBump m, [c0, c1])
              else
                match (env 1).jsonBody with
                | none =>
                    (create_error_response "Internal server error" 500,
                     failBump (succBump m), [c0, c1])
                | some v =>
                    (create_response (some v) none 201, succBump m, [c0, c1])
          | _ =>
              (create_error_response "Internal server error" 500, failBump m, [c0])

/-- Truthiness of `request.args.get(...)`: present and nonempty. -/
def argTruthy : Option String → Bool
  | none => false
  | some s => s ≠ ""

/-- `main_rides.py: list_upcoming_rides` (`GET /api/v1/rides`).  Both query
parameters are converted with `int(...)` before the range checks; an empty
or falsy result list is answered 204 (successful); a truthy non-sequence
(integer) body makes `len(rides)` raise → 500. -/
def list_upcoming_rides (source? destination? : Option String)
    (env : Nat → ExtResponse) (m : ServiceMetrics) :
    HttpResponse × ServiceMetrics × List RideCall :=
  let m := totalBump m
  if !argTruthy source? || !argTruthy destination? then
    (create_error_response "Source and destination parameters are required" 400, failBump m, [])
  else
    match source?, destination? with
    | some sStr, some dStr =>
      (match pyIntOfString sStr with
       | none =>
           (create_error_response "Source and destination must be valid integers" 400,
            failBump m, [])
       | some s =>
         match pyIntOfString dStr with
         | none =>
             (create_error_response "Source and destination must be valid integers" 400,
              failBump m, [])
         | some d =>
           if s < 1 ∨ 198 < s then
             (create_error_response "Source must be between 1 and 198" 400, failBump m, [])
           else if d < 1 ∨ 198 < d then
             (create_error_response "Destination must be between 1 and 198" 400, failBump m, [])
           else
             let c0 := RideCall.read "list_upcoming_ride"
               [("source", .str (toString s)), ("destination", .str (toString d))]
             if (env 0).status_code ≠ 200 then
               (create_error_response "Internal server error" 500, failBump m, [c0])
             else
               match (env 0).jsonBody with
               | none => (create_error_response "Internal server error" 500, failBump m, [c0])
               | some rides =>
                 if pyFalsy rides then
                   (create_response none none 204, succBump m, [c0])
                 else
                   match rides with
                   | .int _ =>
                       (create_error_response "Internal server error" 500, failBump m, [c0])
                   | _ => (create_response (some rides) none 200, succBump m, [c0]))
    | _, _ =>
        (create_error_response "Source and destination parameters are required" 400,
         failBump m, [])

/-- `main_rides.py: get_ride` (`GET /api/v1/rides/<int:ride_id>`).  The
`<int:...>` converter only produces naturals; `ride_id <= 0` therefore means
`ride_id = 0`.  A non-200 read is answered 204 and counted successful. -/
def get_ride (ride_id : Nat) (env : Nat → ExtResponse) (m : ServiceMetrics) :
    HttpResponse × ServiceMetrics × List RideCall :=
  let m := totalBump m
  if ride_id = 0 then
    (create_error_response "Ride ID must be a positive integer" 400, failBump m, [])
  else
    let c0 := RideCall.read "get_ride" [("ride_id", .int (ride_id : Int))]
    if (env 0).status_code ≠ 200 then
      (create_response none none 204, succBump m, [c0])
    else
      match (env 0).jsonBody with
      | none => (create_error_response "Internal server error" 500, failBump m, [c0])
      | some v => (create_response (some v) none 200, succBump m, [c0])

/-- `main_rides.py: get_ride_count` (`GET /api/v1/rides/count`). -/
def get_ride_count (env : Nat → ExtResponse) (m : ServiceMetrics) :
    HttpResponse × ServiceMetrics × List RideCall :=
  let m := totalBump m
  let c0 := RideCall.read "num_ride" []
  if (env 0).status_code ≠ 200 then
    (create_error_response "Internal server error" 500, failBump m, [c0])
  else
    match (env 0).jsonBody with
    | none => (create_error_response "Internal server error" 500, failBump m, [c0])
    | some v => (create_response (some v) none 200, succBump m, [c0])

/-- `main_rides.py: join_ride` (`POST /api/v1/rides/<int:ride_id>`). -/
def join_ride (ride_id : Nat) (is_json : Bool) (body? : Option Dict)
    (env : Nat → ExtResponse) (m : ServiceMetrics) :
    HttpResponse × ServiceMetrics × List RideCall :=
  let m := totalBump m
  if !is_json then
    (create_error_response "Content-Type must be application/json" 400, failBump m, [])
  else
    match body? with
    | none => (create_error_response getJsonFailureText 400, failBump m, [])
    | some body =>
      if body.isEmpty then
        (create_error_response "Request body is required" 400, failBump m, [])
      else
        match dget "username" body with
        | none =>
            (create_error_response "Username is required in request body" 400, failBump m, [])
        | some uv =>
          let c0 := RideCall.userGet [("username", uv)]
          match uv with
          | .str u =>
            if !pyInStr u (env 0).text then
              (create_error_response ("User " ++ u ++ " not found") 400, failBump m, [c0])
            else
              let c1 := RideCall.write "join_ride"
                [("ride_id", .int (ride_id : Int)), ("username", .str u)]
              if (env 1).status_code ≠ 200 then
                (create_error_response "Internal server error" 500, failBump m, [c0, c1])
              else
                (create_response none (some "Successfully joined ride") 200,
                 succBump m, [c0, c1])
          | _ => (create_error_response "Internal server error" 500, failBump m, [c0])

/-- `main_rides.py: delete_ride` (`DELETE /api/v1/rides/<int:ride_id>`): no
existence check, just the write. -/
def delete_ride (ride_id : Nat) (env : Nat → ExtResponse) (m : ServiceMetrics) :
    HttpResponse × ServiceMetrics × List RideCall :=
  let m := totalBump m
  if ride_id = 0 then
    (create_error_response "Ride ID must be a positive integer" 400, failBump m, [])
  else
    let c0 := RideCall.write "delete_ride" [("ride_id", .int (ride_id : Int))]
    if (env 0).status_code ≠ 200 then
      (create_error_response "Internal server error" 500, failBump m, [c0])
    else
      (create_response none (some "Ride deleted successfully") 200, succBump m, [c0])

/-- The URL space of the ride service (`/api/v1/rides/count` matches its own
rule, not the `<int:ride_id>` converter). -/
inductive RidePath where
  | rides
  | rideById (ride_id : Nat)
  | ridesCount
  | count
  | health
  | metricsEp
  | root
  | unmatched
deriving DecidableEq, Repr

/-- An inbound HTTP request to the ride service (query parameters included:
only `GET /api/v1/rides` reads them). -/
structure RideReq where
  method : Method
  path : RidePath
  is_json : Bool
  body : Option Dict
  source : Option String
  destination : Option String

/-- `config.VERSION` default. -/
def configVersion : String := "1.0.0"

/-- Full request dispatch for the ride service.  `before_request_handler`
checks the content type for POST only; the exception-routing rules are the
same as for the user service. -/
def rideDispatch (req : RideReq) (env : Nat → ExtResponse) (st : ServiceState) :
    HttpResponse × ServiceState × List RideCall :=
  let counter := st.http_request_counter + 1
  if req.method = .POST ∧ req.is_json = false then
    (create_error_response "Internal server error" 500, ⟨counter, st.metrics⟩, [])
  else
    match req.method, req.path with
    | .POST, .rides =>
        let r := add_ride req.is_json req.body env st.metrics
        (r.1, ⟨counter, r.2.1⟩, r.2.2)
    | .GET, .rides =>
        let r := list_upcoming_rides req.source req.destination env st.metrics
        (r.1, ⟨counter, r.2.1⟩, r.2.2)
    | .GET, .rideById rid =>
        let r := get_ride rid env st.metrics
        (r.1, ⟨counter, r.2.1⟩, r.2.2)
    | .GET, .ridesCount =>
        let r := get_ride_count env st.metrics
        (r.1, ⟨counter, r.2.1⟩, r.2.2)
    | .POST, .rideById rid =>
        let r := join_ride rid req.is_json req.body env st.metrics
        (r.1, ⟨counter, r.2.1⟩, r.2.2)
    | .DELETE, .rideById rid =>
        let r := delete_ride rid env st.metrics
        (r.1, ⟨counter, r.2.1⟩, r.2.2)
    | .GET, .count =>
        (create_response (some (.arr [.int (counter : Int)])) none 200,
         ⟨counter, st.metrics⟩, [])
    | .DELETE, .count =>
        (create_response none (some "Request counter reset successfully") 200,
         ⟨0, st.metrics⟩, [])
    | .GET, .health =>
        (create_response
          (some (.obj [("status", .str "healthy"), ("service", .str "ride-service"),
                       ("version", .str configVersion)])) none 200,
         ⟨counter, st.metrics⟩, [])
    | .GET, .metricsEp =>
        (create_response
          (some (.obj [("total_requests", .int (st.metrics.total_requests : Int)),
                       ("successful_requests", .int (st.metrics.successful_requests : Int)),
                       ("failed_requests", .int (st.metrics.failed_requests : Int)),
                       ("http_request_counter", .int (counter : Int))])) none 200,
         ⟨counter, st.metrics⟩, [])
    | .GET, .root =>
        (create_response
          (some (.obj [("service", .str "ride-service"), ("version", .str configVersion),
                       ("endpoints",
                        .arr [.str "POST /api/v1/rides", .str "GET /api/v1/rides",
                              .str "GET /api/v1/rides/<ride_id>",
                              .str "GET /api/v1/rides/count",
                              .str "POST /api/v1/rides/<ride_id>",
                              .str "DELETE /api/v1/rides/<ride_id>",
                              .str "GET /api/v1/_count", .str "DELETE /api/v1/_count",
                              .str "GET /health", .str "GET /metrics"])])) none 200,
         ⟨counter, st.metrics⟩, [])
    | _, _ =>
        (create_error_response "Internal server error" 500, ⟨counter, st.metrics⟩, [])

end Rides

/-! ## Helper lemmas about the string primitives -/

theorem word_not_space (c : Char) (h : isWordChar c = true) : isPySpace c = false := by
  by_contra hs
  have hs' : isPySpace c = true := by
    cases hmm : isPySpace c
    · exact absurd hmm hs
    · rfl
  simp only [isPySpace, Bool.or_eq_true, beq_iff_eq] at hs'
  rcases hs' with ((((rfl | rfl) | rfl) | rfl) | rfl) | rfl <;> exact absurd h (by decide)

theorem dropWhile_no_space {l : List Char} (h : ∀ c ∈ l, isWordChar c = true) :
    l.dropWhile isPySpace = l := by
  cases l with
  | nil => rfl
  | cons a t =>
      rw [List.dropWhile_cons, word_not_space a (h a (by simp))]
      simp

theorem pyStripChars_word {l : List Char} (h : ∀ c ∈ l, isWordChar c = true) :
    pyStripChars l = l := by
  unfold pyStripChars pyDropSpace
  rw [dropWhile_no_space h, dropWhile_no_space (fun c hc => h c (List.mem_reverse.mp hc)),
    List.reverse_reverse]

theorem pyStripChars_word_newline {l : List Char} (h : ∀ c ∈ l, isWordChar c = true) :
    pyStripChars (l ++ ['\n']) = l := by
  cases l with
  | nil => rfl
  | cons a t =>
      have hd : pyDropSpace ((a :: t) ++ ['\n']) = (a :: t) ++ ['\n'] := by
        unfold pyDropSpace
        rw [List.cons_append, List.dropWhile_cons, word_not_space a (h a (by simp))]
        simp
      unfold pyStripChars
      rw [hd]
      have hrev : ((a :: t) ++ ['\n']).reverse = '\n' :: (a :: t).reverse := by simp
      rw [hrev, List.dropWhile_cons]
      simp only [show isPySpace '\n' = true from rfl, if_true]
      rw [dropWhile_no_space (fun c hc => h c (List.mem_reverse.mp hc)), List.reverse_reverse]

theorem listHasInfix_append_left {n post : List Char} (pre : List Char)
    (h : listHasInfix n post = true) : listHasInfix n (pre ++ post) = true := by
  induction pre with
  | nil => simpa using h
  | cons a t ih =>
      rw [List.cons_append]
      unfold listHasInfix
      cases ht : t ++ post with
      | nil =>
          cases t <;> simp_all [listHasInfix]
      | cons b bs =>
          rw [← ht]
          simp [ih]

/-! ## Claim theorems -/

/-- A fixed valid SHA1-shaped password (40 hex characters). -/
def hexA40 : String := "aaaaaaaaaaaaaaaaaaaaaaaaaaaaaaaaaaaaaaaa"

/-- An external environment whose first response is a miss (404) and whose
second is a success (200). -/
def envMissThenHit : Nat → ExtResponse :=
  fun n => if n = 0 then ⟨404, "", some (.int 0)⟩ else ⟨200, "", some (.int 0)⟩

/-- C1: at the failing input — a `PUT /api/v1/users` whose Content-Type is
not JSON — the user service does not answer 400: the `ValidationError`
raised by `before_request_handler` reaches `errorhandler(Exception)` (no
handler is registered for `ValidationError`, which does not derive from
`werkzeug.BadRequest`), so the response is 500 "Internal server error", and
`failed_requests` is not incremented (the handler body, which owns the
counter updates, never runs); only the HTTP request counter moves.  The
repository's own test `test_create_user_invalid_content_type` asserts 400
for exactly this request, so this is a bug in the code. -/
theorem c1_content_type_bug :
    Users.userDispatch
      { method := .PUT, path := .users, is_json := false,
        body := some [("username", .str "testuser"), ("password", .str hexA40)] }
      envMissThenHit ⟨0, ⟨0, 0, 0⟩⟩
    = (create_error_response "Internal server error" 500, ⟨1, ⟨0, 0, 0⟩⟩, []) := rfl

/-- C3 (counterexample): starting from a service that has already handled
seven requests, `DELETE /api/v1/_count` resets the counter to 0, but the
immediately following `GET /api/v1/_count` answers `[1]`, not `[0]`: the
`before_request` middleware counts the GET itself before the handler reads
the counter. -/
theorem c3_count_after_reset_counterexample :
    (Users.userDispatch ⟨.GET, .count, true, none⟩ envMissThenHit
        ((Users.userDispatch ⟨.DELETE, .count, true, none⟩ envMissThenHit
            ⟨7, ⟨3, 2, 1⟩⟩).2.1)).1
      = create_response (some (.arr [.int 1])) none 200
    ∧ (PyVal.arr [.int 1] = PyVal.arr [.int 0] → False) := by
  constructor
  · rfl
  · intro h
    simp at h

/-- C3 (amended): the HTTP request counter is incremented on every inbound
request regardless of outcome and `DELETE /api/v1/_count` resets it to 0,
but from any state the GET that immediately follows the reset answers
`[1]` with status 200, because the GET is itself counted before the handler
reads the counter. -/
theorem c3_count_after_reset_amended (st : ServiceState) (env env' : Nat → ExtResponse) :
    (Users.userDispatch ⟨.GET, .count, true, none⟩ env'
        ((Users.userDispatch ⟨.DELETE, .count, true, none⟩ env st).2.1)).1
      = create_response (some (.arr [.int 1])) none 200 := rfl

/-- C10: both password validators — the legacy
`CreateUserRequests.validatePassword` used by `PUT /api/v1/users` and the
newer `validate_password` — accept a 41-character string made of 40
hexadecimal characters followed by one trailing newline, because the `$`
anchor of `^[a-fA-F0-9]{40}$` also matches just before a final newline; the
value is returned (forwarded) unchanged, so acceptance is not restricted to
strings of exactly 40 hexadecimal characters. -/
theorem c10_trailing_newline_password (p : String) (hp : sha1Core p.data = true) :
    Users.CreateUserRequests.validatePassword (.str (p ++ "\n")) = .ok (p ++ "\n")
    ∧ Users.validate_password (p ++ "\n") = .ok (p ++ "\n")
    ∧ (p ++ "\n").length = 41 := by
  have hdata : (p ++ "\n").data = p.data ++ ['\n'] := rfl
  have hp' := hp
  simp only [sha1Core, Bool.and_eq_true, beq_iff_eq] at hp'
  obtain ⟨hlen, hhex⟩ := hp'
  have hmatch : reFullMatch sha1Core (p ++ "\n") = true := by
    simp only [reFullMatch, hdata, Bool.or_eq_true, Bool.and_eq_true]
    right
    refine ⟨by simp, ?_⟩
    rw [List.dropLast_concat]
    exact hp
  have hne : (p ++ "\n") ≠ "" := by
    intro h
    have hd := congrArg String.data h
    rw [hdata] at hd
    simp at hd
  refine ⟨?_, ?_, ?_⟩
  · simp [Users.CreateUserRequests.validatePassword, hmatch]
  · simp [Users.validate_password, hne, hmatch]
  · show (p ++ "\n").data.length = 41
    rw [hdata]
    simp [hlen]

/-- Witness for C10 at the concrete 40-`a` digest. -/
theorem c10_trailing_newline_password_witness :
    Users.CreateUserRequests.validatePassword (.str (hexA40 ++ "\n")) = .ok (hexA40 ++ "\n")
    ∧ Users.validate_password (hexA40 ++ "\n") = .ok (hexA40 ++ "\n")
    ∧ (hexA40 ++ "\n").length = 41 :=
  c10_trailing_newline_password hexA40 (by decide)

/-- C2 (counterexample): a `PUT /api/v1/users` body whose username is
`"bad@user"` — which violates `^[A-Za-z0-9_]{1,50}$` — is *not* rejected:
the handler constructs the legacy `CreateUserRequests`, which never checks
the username's format, issues the `get_user` read and the `add_user` write,
and answers 201. -/
theorem c2_invalid_username_accepted_counterexample :
    Users.userDispatch
      ⟨.PUT, .users, true, some [("username", .str "bad@user"), ("password", .str hexA40)]⟩
      envMissThenHit ⟨0, ⟨0, 0, 0⟩⟩
    = (create_response none (some "User created successfully") 201, ⟨1, ⟨1, 1, 0⟩⟩,
       [.read "get_user" [("username", .str "bad@user")],
        .write "add_user" [("username", .str "bad@user"), ("password", .str hexA40)]]) := rfl

/-- C2 (amended): `PUT /api/v1/users` with a JSON body carrying `username`
and `password` validates only the password on this path, against
`^[a-fA-F0-9]{40}$` (the legacy request class; the username's format is
never checked): when the password matches, the request proceeds to the
database and the first outbound call is the `get_user` read for the given
username, whatever its content; when the password does not match, the
request is rejected 400 with the legacy message before any database call. -/
theorem c2_put_users_validation_amended (u p : String) (env : Nat → ExtResponse)
    (st : ServiceState) :
    (reFullMatch sha1Core p = true →
      (Users.userDispatch
          ⟨.PUT, .users, true, some [("username", .str u), ("password", .str p)]⟩
          env st).2.2.head?
        = some (.read "get_user" [("username", .str u)]))
    ∧ (reFullMatch sha1Core p = false →
      Users.userDispatch
          ⟨.PUT, .users, true, some [("username", .str u), ("password", .str p)]⟩
          env st
        = (create_error_response (badRequestText "Password is not in SHA1 format") 400,
           ⟨st.http_request_counter + 1, failBump (totalBump st.metrics)⟩, [])) := by
  constructor
  · intro hp
    by_cases h0 : (env 0).status_code = 200
    · simp [Users.userDispatch, Users.add_user, Users.CreateUserRequests.ofJson, dget,
        Users.CreateUserRequests.validatePassword, Users.CreateUserRequests.getUsername,
        hp, h0]
    · by_cases h1 : (env 1).status_code ≠ 200 <;>
        simp [Users.userDispatch, Users.add_user, Users.CreateUserRequests.ofJson, dget,
          Users.CreateUserRequests.validatePassword, Users.CreateUserRequests.getUsername,
          hp, h0, h1]
  · intro hp
    simp [Users.userDispatch, Users.add_user, Users.CreateUserRequests.ofJson, dget,
      Users.CreateUserRequests.validatePassword, hp]

/-- Witness for C2 (amended): a valid password reaches the database (first
call `get_user`) even with the malformed username; an invalid password is
rejected with the legacy 400. -/
theorem c2_put_users_validation_amended_witness :
    (Users.userDispatch
        ⟨.PUT, .users, true, some [("username", .str "bad@user"), ("password", .str hexA40)]⟩
        envMissThenHit ⟨0, ⟨0, 0, 0⟩⟩).2.2.head?
      = some (.read "get_user" [("username", .str "bad@user")])
    ∧ Users.userDispatch
        ⟨.PUT, .users, true, some [("username", .str "bad@user"), ("password", .str "nope")]⟩
        envMissThenHit ⟨0, ⟨0, 0, 0⟩⟩
      = (create_error_response (badRequestText "Password is not in SHA1 format") 400,
         ⟨1, failBump (totalBump ⟨0, 0, 0⟩)⟩, []) :=
  ⟨(c2_put_users_validation_amended "bad@user" hexA40 envMissThenHit ⟨0, ⟨0, 0, 0⟩⟩).1
      (by decide),
   (c2_put_users_validation_amended "bad@user" "nope" envMissThenHit ⟨0, ⟨0, 0, 0⟩⟩).2
      (by decide)⟩

/-- Modelled from the spec: the regex `^[A-Za-z0-9_]{1,50}$` read as a plain
full match — between one and fifty word characters and nothing else.  (The
code's validator is compared to this below.) -/
def usernamePatternSpec (s : String) : Bool :=
  wordPlusCore s.data && decide (s.length ≤ 50)

/-- A string with a nonempty character list is not `""`. -/
theorem ne_empty_of_data_ne_nil {s : String} (h : s.data ≠ []) : s ≠ "" := by
  intro he
  exact h (by rw [he])

/-- On a full word-character match, `strip` is the identity. -/
theorem pyStrip_word {s : String} (h : wordPlusCore s.data = true) : pyStrip s = s := by
  simp only [wordPlusCore, Bool.and_eq_true, List.all_eq_true, Bool.not_eq_eq_eq_not,
    Bool.not_true, List.isEmpty_eq_false] at h
  rw [String.ext_iff]
  exact pyStripChars_word h.2

/-- C8 (counterexample): `validate_username "a\n"` succeeds (returning the
stripped `"a"`) although `"a\n"` does not match `^[A-Za-z0-9_]{1,50}$`: the
code's `re.match(r'^[a-zA-Z0-9_]+$', ...)` also matches a string with one
trailing newline, so acceptance is strictly larger than the spec's
pattern. -/
theorem c8_validate_username_counterexample :
    Users.validate_username "a\n" = .ok "a" ∧ usernamePatternSpec "a\n" = false := by
  constructor
  · rfl
  · rfl

/-- C8 (amended): `validate_username` succeeds exactly on the strings
accepted by Python's `re.match(r'^[a-zA-Z0-9_]+$', s)` — a nonempty run of
word characters, optionally followed by one newline — of length at most 50,
returning `s.strip()`; on every string that fully matches
`^[A-Za-z0-9_]{1,50}$` the returned value is `s` itself, unchanged; every
other string (empty, longer than 50, containing `@`, `-`, spaces, ...) is
rejected.  The ride service's copy of the validator behaves identically. -/
theorem c8_validate_username_amended (s : String) :
    (reFullMatch wordPlusCore s = true → s.length ≤ 50 →
        Users.validate_username s = .ok (pyStrip s))
    ∧ (usernamePatternSpec s = true → Users.validate_username s = .ok s)
    ∧ (reFullMatch wordPlusCore s = false ∨ 50 < s.length →
        (Users.validate_username s).isOk = false)
    ∧ Rides.validate_username s = Users.validate_username s := by
  have hok : ∀ (hne : s ≠ "") (hstrip : pyStrip s ≠ "") (hl : ¬ 50 < s.length)
      (hm : reFullMatch wordPlusCore s = true),
      Users.validate_username s = .ok (pyStrip s) := by
    intro hne hstrip hl hm
    simp [Users.validate_username, hne, hstrip, hl, hm]
  refine ⟨?_, ?_, ?_, rfl⟩
  · intro hm hl
    have hm' := hm
    simp only [reFullMatch, Bool.or_eq_true, Bool.and_eq_true, beq_iff_eq] at hm'
    rcases hm' with hA | ⟨hg, hB⟩
    · have hstr := pyStrip_word hA
      have hne : s ≠ "" := by
        apply ne_empty_of_data_ne_nil
        simp only [wordPlusCore, Bool.and_eq_true, Bool.not_eq_eq_eq_not, Bool.not_true,
          List.isEmpty_eq_false] at hA
        exact hA.1
      exact hok hne (by rw [hstr]; exact hne) (by omega) hm
    · obtain ⟨l', hsplit⟩ := List.getLast?_eq_some_iff.mp hg
      rw [hsplit, List.dropLast_concat] at hB
      simp only [wordPlusCore, Bool.and_eq_true, List.all_eq_true, Bool.not_eq_eq_eq_not,
        Bool.not_true, List.isEmpty_eq_false] at hB
      have hstripdata : (pyStrip s).data = l' := by
        show pyStripChars s.data = l'
        rw [hsplit]
        exact pyStripChars_word_newline hB.2
      have hne : s ≠ "" := by
        apply ne_empty_of_data_ne_nil
        rw [hsplit]
        simp
      have hstrip : pyStrip s ≠ "" := by
        apply ne_empty_of_data_ne_nil
        rw [hstripdata]
        exact hB.1
      exact hok hne hstrip (by omega) hm
  · intro hspec
    simp only [usernamePatternSpec, Bool.and_eq_true, decide_eq_true_eq] at hspec
    obtain ⟨hA, hl⟩ := hspec
    have hm : reFullMatch wordPlusCore s = true := by
      simp [reFullMatch, hA]
    have h1 : Users.validate_username s = .ok (pyStrip s) := by
      have hstr := pyStrip_word hA
      have hne : s ≠ "" := by
        apply ne_empty_of_data_ne_nil
        simp only [wordPlusCore, Bool.and_eq_true, Bool.not_eq_eq_eq_not, Bool.not_true,
          List.isEmpty_eq_false] at hA
        exact hA.1
      exact hok hne (by rw [hstr]; exact hne) (by omega) hm
    rw [h1, pyStrip_word hA]
  · intro h
    by_cases h1 : s = ""
    · simp [Users.validate_username, h1, Except.isOk, Except.toBool]
    · by_cases h2 : pyStrip s = ""
      · simp [Users.validate_username, h1, h2, Except.isOk, Except.toBool]
      · by_cases h3 : 50 < s.length
        · simp [Users.validate_username, h1, h2, h3, Except.isOk, Except.toBool]
        · have hm : reFullMatch wordPlusCore s = false := by
            rcases h with hf | hlen
            · exact hf
            · exact absurd hlen h3
          simp [Users.validate_username, h1, h2, h3, hm, Except.isOk, Except.toBool]

/-- Witness for C8 (amended): `"user_1"` matches the spec pattern and is
returned unchanged; `"bad@user"` is rejected. -/
theorem c8_validate_username_amended_witness :
    Users.validate_username "user_1" = .ok "user_1"
    ∧ (Users.validate_username "bad@user").isOk = false :=
  ⟨(c8_validate_username_amended "user_1").2.1 (by decide),
   (c8_validate_username_amended "bad@user").2.2.1 (Or.inl (by decide))⟩

/-- C9 (counterexample): a dictionary that carries a valid `username` and
`password` *and one extra key* does not round-trip: `from_dict` succeeds but
`to_dict` emits only the two modelled fields, so the result differs from the
input at the extra key. -/
theorem c9_round_trip_counterexample :
    Users.CreateUserRequest.from_dict
        [("username", .str "bob_1"), ("password", .str hexA40), ("role", .str "admin")]
      = .ok ⟨"bob_1", hexA40⟩
    ∧ ¬ Users.dictEquiv
        (Users.CreateUserRequest.to_dict ⟨"bob_1", hexA40⟩)
        [("username", .str "bob_1"), ("password", .str hexA40), ("role", .str "admin")] := by
  constructor
  · rfl
  · intro h
    have := h "role"
    simp [Users.CreateUserRequest.to_dict, dget] at this

/-- C9 (amended): for every dictionary whose keys are exactly `username` and
`password`, with a username fully matching `^[A-Za-z0-9_]{1,50}$` and a
password of exactly 40 hexadecimal characters,
`CreateUserRequest.from_dict(d).to_dict()` equals `d` — in particular for
`d = ⦃username: "bob_1", password: "a"*40⦄`. -/
theorem c9_round_trip_amended (u p : String)
    (hu : wordPlusCore u.data = true) (hul : u.length ≤ 50)
    (hp : sha1Core p.data = true) :
    Users.CreateUserRequest.from_dict [("username", .str u), ("password", .str p)]
      = .ok ⟨u, p⟩
    ∧ Users.CreateUserRequest.to_dict ⟨u, p⟩ = [("username", .str u), ("password", .str p)] := by
  have hune : u ≠ "" := by
    apply ne_empty_of_data_ne_nil
    simp only [wordPlusCore, Bool.and_eq_true, Bool.not_eq_eq_eq_not, Bool.not_true,
      List.isEmpty_eq_false] at hu
    exact hu.1
  have hpne : p ≠ "" := by
    apply ne_empty_of_data_ne_nil
    simp only [sha1Core, Bool.and_eq_true, beq_iff_eq] at hp
    intro hnil
    rw [hnil] at hp
    simp at hp
  have hvu : Users.validate_username u = .ok u := by
    have hstr := pyStrip_word hu
    have hm : reFullMatch wordPlusCore u = true := by simp [reFullMatch, hu]
    have hstrip : pyStrip u ≠ "" := by rw [hstr]; exact hune
    have hlen : ¬ 50 < u.length := by omega
    simp [Users.validate_username, hune, hstrip, hlen, hm, hstr]
  have hvp : Users.validate_password p = .ok p := by
    have hm : reFullMatch sha1Core p = true := by simp [reFullMatch, hp]
    simp [Users.validate_password, hpne, hm]
  constructor
  · simp [Users.CreateUserRequest.from_dict, dget, Users.CreateUserRequest.create,
      Users.validate_username_py, Users.validate_password_py, pyFalsy, hune, hpne, hvu, hvp]
  · rfl

/-- Witness for C9 (amended): the spec's concrete instance
`username = "bob_1"`, `password = "a"*40` round-trips. -/
theorem c9_round_trip_amended_witness :
    Users.CreateUserRequest.from_dict [("username", .str "bob_1"), ("password", .str hexA40)]
      = .ok ⟨"bob_1", hexA40⟩
    ∧ Users.CreateUserRequest.to_dict ⟨"bob_1", hexA40⟩
      = [("username", .str "bob_1"), ("password", .str hexA40)] :=
  c9_round_trip_amended "bob_1" hexA40 (by decide) (by decide) (by decide)

/-- C5: `PUT /api/v1/users` with a valid body: when the `get_user` read is a
miss (any non-200) and the `add_user` write succeeds (200), the response is
201 "User created successfully" and `successful_requests` grows by exactly
one; when the read is a hit (200), the response is 400 with a message
containing "already exists", no write is issued (the call list stops at the
read) and `failed_requests` grows by exactly one. -/
theorem c5_put_users_db_outcomes (u p : String) (hp : sha1Core p.data = true)
    (env : Nat → ExtResponse) (st : ServiceState) :
    ((env 0).status_code ≠ 200 → (env 1).status_code = 200 →
      Users.userDispatch
          ⟨.PUT, .users, true, some [("username", .str u), ("password", .str p)]⟩ env st
        = (create_response none (some "User created successfully") 201,
           ⟨st.http_request_counter + 1, succBump (totalBump st.metrics)⟩,
           [.read "get_user" [("username", .str u)],
            .write "add_user" [("username", .str u), ("password", .str p)]]))
    ∧ ((env 0).status_code = 200 →
      Users.userDispatch
          ⟨.PUT, .users, true, some [("username", .str u), ("password", .str p)]⟩ env st
        = (create_error_response ("User " ++ u ++ " already exists") 400,
           ⟨st.http_request_counter + 1, failBump (totalBump st.metrics)⟩,
           [.read "get_user" [("username", .str u)]])
      ∧ pyInStr "already exists" ("User " ++ u ++ " already exists") = true) := by
  have hm : reFullMatch sha1Core p = true := by simp [reFullMatch, hp]
  constructor
  · intro h0 h1
    simp [Users.userDispatch, Users.add_user, Users.CreateUserRequests.ofJson, dget,
      Users.CreateUserRequests.validatePassword, Users.CreateUserRequests.getUsername,
      Users.CreateUserRequests.getPassword, hm, h0, h1, pyStr]
  · intro h0
    refine ⟨?_, ?_⟩
    · simp [Users.userDispatch, Users.add_user, Users.CreateUserRequests.ofJson, dget,
        Users.CreateUserRequests.validatePassword, Users.CreateUserRequests.getUsername,
        hm, h0, pyStr]
    · have hbase : listHasInfix "already exists".data " already exists".data = true := by
        decide
      have hdata : ("User " ++ u ++ " already exists").data
          = ("User ".data ++ u.data) ++ " already exists".data := rfl
      unfold pyInStr
      rw [hdata]
      exact listHasInfix_append_left _ hbase

/-- Witness for C5 at `username = "alice"`, the all-`a` digest, a 404 read
and a 200 write (first conjunct), and a 200 read (second conjunct). -/
theorem c5_put_users_db_outcomes_witness :
    Users.userDispatch
        ⟨.PUT, .users, true, some [("username", .str "alice"), ("password", .str hexA40)]⟩
        envMissThenHit ⟨0, ⟨0, 0, 0⟩⟩
      = (create_response none (some "User created successfully") 201,
         ⟨1, succBump (totalBump ⟨0, 0, 0⟩)⟩,
         [.read "get_user" [("username", .str "alice")],
          .write "add_user" [("username", .str "alice"), ("password", .str hexA40)]])
    ∧ (Users.userDispatch
        ⟨.PUT, .users, true, some [("username", .str "alice"), ("password", .str hexA40)]⟩
        (fun _ => ⟨200, "", some (.int 0)⟩) ⟨0, ⟨0, 0, 0⟩⟩
      = (create_error_response ("User " ++ "alice" ++ " already exists") 400,
         ⟨1, failBump (totalBump ⟨0, 0, 0⟩)⟩,
         [.read "get_user" [("username", .str "alice")]])
      ∧ pyInStr "already exists" ("User " ++ "alice" ++ " already exists") = true) :=
  ⟨(c5_put_users_db_outcomes "alice" hexA40 (by decide) envMissThenHit ⟨0, ⟨0, 0, 0⟩⟩).1
      (by decide) (by decide),
   (c5_put_users_db_outcomes "alice" hexA40 (by decide) (fun _ => ⟨200, "", some (.int 0)⟩)
      ⟨0, ⟨0, 0, 0⟩⟩).2 (by decide)⟩

/-- A `POST /api/v1/rides` body, valid except for the timestamp under test. -/
def postRideBody (ts : String) : Dict :=
  [("created_by", .str "alice"), ("source", .int 5), ("destination", .int 10),
   ("timestamp", .str ts)]

/-- An external environment for the ride-creation path: the user-service
check returns a body containing `alice`, and the database write succeeds
with a parseable JSON body. -/
def rideEnvOk : Nat → ExtResponse :=
  fun _ => ⟨200, "[\"alice\"]", some (.int 1)⟩

/-- C4 (counterexample): the timestamp `"1-1-2024:30-15-10"` fails the fixed
regex `\d{2}-\d{2}-\d{4}:\d{2}-\d{2}-\d{2}` (fields not zero-padded) yet
`POST /api/v1/rides` accepts it with 201: the creation path validates the
timestamp only through `datetime.strptime`, which tolerates one-digit
fields, and never invokes the regex validator — so acceptance does not
require both validations to pass. -/
theorem c4_timestamp_counterexample :
    strptime_dmY_SMH "1-1-2024:30-15-10" = some ⟨2024, 1, 1, 10, 15, 30⟩
    ∧ Rides.validate_timestamp_format "1-1-2024:30-15-10"
        = .error "Invalid timestamp format. Please use DD-MM-YYYY:SS-MM-HH"
    ∧ (Rides.rideDispatch
          ⟨.POST, .rides, true, some (postRideBody "1-1-2024:30-15-10"), none, none⟩
          rideEnvOk ⟨0, ⟨0, 0, 0⟩⟩).1.status_code = 201 :=
  ⟨rfl, rfl, rfl⟩

/-- C4 (amended): on `POST /api/v1/rides` the timestamp is validated only by
the legacy `datetime.strptime` parse under the day-month-year /
seconds-minutes-hours field mapping (the regex validator is not invoked on
this path): with the rest of the body valid and the external calls
succeeding, the request is accepted (201) exactly when the `strptime` parse
succeeds.  In particular `"01-01-2024:30-15-10"` is accepted and
`"2024-01-01:10-15-30"` is rejected. -/
theorem c4_timestamp_amended :
    (∀ ts : String,
      ((Rides.rideDispatch ⟨.POST, .rides, true, some (postRideBody ts), none, none⟩
          rideEnvOk ⟨0, ⟨0, 0, 0⟩⟩).1.status_code = 201
        ↔ (strptime_dmY_SMH ts).isSome = true))
    ∧ (Rides.rideDispatch
          ⟨.POST, .rides, true, some (postRideBody "01-01-2024:30-15-10"), none, none⟩
          rideEnvOk ⟨0, ⟨0, 0, 0⟩⟩).1.status_code = 201
    ∧ (Rides.rideDispatch
          ⟨.POST, .rides, true, some (postRideBody "2024-01-01:10-15-30"), none, none⟩
          rideEnvOk ⟨0, ⟨0, 0, 0⟩⟩).1.status_code = 400 := by
  have halice : pyInStr "alice" "[\"alice\"]" = true := by decide
  refine ⟨?_, rfl, rfl⟩
  intro ts
  cases h : strptime_dmY_SMH ts with
  | none =>
      simp [Rides.rideDispatch, Rides.add_ride, Rides.CreateRideRequests.ofJson, dget,
        postRideBody, Rides.validateSource, Rides.validateDestination,
        Rides.validateTimestamp, h, rideEnvOk, create_error_response, badRequestText]
  | some dt =>
      simp [Rides.rideDispatch, Rides.add_ride, Rides.CreateRideRequests.ofJson, dget,
        postRideBody, Rides.validateSource, Rides.validateDestination,
        Rides.validateTimestamp, h, rideEnvOk, halice, create_response]

/-- C6: (a) `GET /api/v1/rides` with in-range integer `source`/`destination`
query parameters and a 200 read whose body is the empty list is answered 204
with an empty envelope (no `data`, no `message`) and counted successful;
(b) `GET /api/v1/rides/<id>` (id positive, as the `<int:...>` rule produces)
whose read returns any non-200 status is answered 204, counted successful
(`successful_requests` +1, `failed_requests` unchanged), with no error
envelope. -/
theorem c6_rides_204_paths :
    (∀ (sStr dStr : String) (s d : Int) (env : Nat → ExtResponse) (st : ServiceState),
      pyIntOfString sStr = some s → pyIntOfString dStr = some d →
      1 ≤ s → s ≤ 198 → 1 ≤ d → d ≤ 198 →
      (env 0).status_code = 200 → (env 0).jsonBody = some (.arr []) →
      Rides.rideDispatch ⟨.GET, .rides, true, none, some sStr, some dStr⟩ env st
        = (create_response none none 204,
           ⟨st.http_request_counter + 1, succBump (totalBump st.metrics)⟩,
           [.read "list_upcoming_ride"
              [("source", .str (toString s)), ("destination", .str (toString d))]]))
    ∧ (∀ (rid : Nat) (env : Nat → ExtResponse) (st : ServiceState),
      rid ≠ 0 → (env 0).status_code ≠ 200 →
      Rides.rideDispatch ⟨.GET, .rideById rid, true, none, none, none⟩ env st
        = (create_response none none 204,
           ⟨st.http_request_counter + 1, succBump (totalBump st.metrics)⟩,
           [.read "get_ride" [("ride_id", .int (rid : Int))]])) := by
  constructor
  · intro sStr dStr s d env st hs hd h1 h2 h3 h4 h200 hjson
    have hsne : sStr ≠ "" := by
      rintro rfl
      rw [show pyIntOfString "" = none from rfl] at hs
      exact Option.noConfusion hs
    have hdne : dStr ≠ "" := by
      rintro rfl
      rw [show pyIntOfString "" = none from rfl] at hd
      exact Option.noConfusion hd
    have hr1 : ¬ (s < 1 ∨ 198 < s) := by omega
    have hr2 : ¬ (d < 1 ∨ 198 < d) := by omega
    simp [Rides.rideDispatch, Rides.list_upcoming_rides, Rides.argTruthy, hsne, hdne,
      hs, hd, hr1, hr2, h200, hjson, pyFalsy]
  · intro rid env st hrid h200
    simp [Rides.rideDispatch, Rides.get_ride, hrid, h200]

/-- Witness for C6 at `source=5`, `destination=10`, an empty result list,
and `ride_id = 42` with a 404 read. -/
theorem c6_rides_204_paths_witness :
    Rides.rideDispatch ⟨.GET, .rides, true, none, some "5", some "10"⟩
        (fun _ => ⟨200, "", some (.arr [])⟩) ⟨0, ⟨0, 0, 0⟩⟩
      = (create_response none none 204, ⟨1, succBump (totalBump ⟨0, 0, 0⟩)⟩,
         [.read "list_upcoming_ride"
            [("source", .str (toString (5 : Int))), ("destination", .str (toString (10 : Int)))]])
    ∧ Rides.rideDispatch ⟨.GET, .rideById 42, true, none, none, none⟩
        (fun _ => ⟨404, "", some (.int 0)⟩) ⟨0, ⟨0, 0, 0⟩⟩
      = (create_response none none 204, ⟨1, succBump (totalBump ⟨0, 0, 0⟩)⟩,
         [.read "get_ride" [("ride_id", .int 42)]]) :=
  ⟨c6_rides_204_paths.1 "5" "10" 5 10 (fun _ => ⟨200, "", some (.arr [])⟩) ⟨0, ⟨0, 0, 0⟩⟩
      (by decide) (by decide) (by decide) (by decide) (by decide) (by decide) rfl rfl,
   c6_rides_204_paths.2 42 (fun _ => ⟨404, "", some (.int 0)⟩) ⟨0, ⟨0, 0, 0⟩⟩
      (by decide) (by decide)⟩

/-! ## Metrics bookkeeping lemmas (for C7) -/

/-- The metrics object records one completed request: total +1 and exactly
one of successful/failed +1. -/
def unitBump (m m' : ServiceMetrics) : Prop :=
  m' = succBump (totalBump m) ∨ m' = failBump (totalBump m)

/-- The spec's counting invariant. -/
def metricsBalanced (m : ServiceMetrics) : Prop :=
  m.total_requests = m.successful_requests + m.failed_requests

theorem balanced_of_unitBump {m m' : ServiceMetrics} (h : metricsBalanced m)
    (hb : unitBump m m') : metricsBalanced m' := by
  rcases hb with rfl | rfl <;>
    simp only [metricsBalanced, succBump, failBump, totalBump] at * <;> omega

theorem add_user_unitBump (ij : Bool) (b : Option Dict) (env : Nat → ExtResponse)
    (m : ServiceMetrics) : unitBump m (Users.add_user ij b env m).2.1 := by
  unfold Users.add_user unitBump
  repeat' split
  all_goals simp

theorem delete_user_unitBump (u : String) (env : Nat → ExtResponse)
    (m : ServiceMetrics) : unitBump m (Users.delete_user u env m).2.1 := by
  unfold Users.delete_user unitBump
  repeat' split
  all_goals simp

theorem list_users_unitBump (env : Nat → ExtResponse) (m : ServiceMetrics)
    (hL : ((env 0).jsonBody).all pyHasLen = true) :
    unitBump m (Users.list_users env m).2.1 := by
  unfold Users.list_users unitBump
  repeat' split
  all_goals simp_all [pyHasLen]

theorem add_ride_unitBump (ij : Bool) (b : Option Dict) (env : Nat → ExtResponse)
    (m : ServiceMetrics) (hJ : ((env 1).jsonBody).isSome = true) :
    unitBump m (Rides.add_ride ij b env m).2.1 := by
  unfold Rides.add_ride unitBump
  repeat' split
  all_goals simp_all

theorem list_upcoming_rides_unitBump (s? d? : Option String) (env : Nat → ExtResponse)
    (m : ServiceMetrics) : unitBump m (Rides.list_upcoming_rides s? d? env m).2.1 := by
  unfold Rides.list_upcoming_rides unitBump
  repeat' split
  all_goals simp

theorem get_ride_unitBump (rid : Nat) (env : Nat → ExtResponse) (m : ServiceMetrics) :
    unitBump m (Rides.get_ride rid env m).2.1 := by
  unfold Rides.get_ride unitBump
  repeat' split
  all_goals simp

theorem get_ride_count_unitBump (env : Nat → ExtResponse) (m : ServiceMetrics) :
    unitBump m (Rides.get_ride_count env m).2.1 := by
  unfold Rides.get_ride_count unitBump
  repeat' split
  all_goals simp

theorem join_ride_unitBump (rid : Nat) (ij : Bool) (b : Option Dict)
    (env : Nat → ExtResponse) (m : ServiceMetrics) :
    unitBump m (Rides.join_ride rid ij b env m).2.1 := by
  unfold Rides.join_ride unitBump
  repeat' split
  all_goals simp

theorem delete_ride_unitBump (rid : Nat) (env : Nat → ExtResponse) (m : ServiceMetrics) :
    unitBump m (Rides.delete_ride rid env m).2.1 := by
  unfold Rides.delete_ride unitBump
  repeat' split
  all_goals simp

theorem userDispatch_balanced (req : Users.UserReq) (env : Nat → ExtResponse)
    (st : ServiceState) (hL : ∀ i, ((env i).jsonBody).all pyHasLen = true)
    (h : metricsBalanced st.metrics) :
    metricsBalanced ((Users.userDispatch req env st).2.1).metrics := by
  obtain ⟨method, path, ij, body⟩ := req
  unfold Users.userDispatch
  dsimp only
  split
  · exact h
  · split <;>
      first
        | exact h
        | exact balanced_of_unitBump h (add_user_unitBump _ _ _ _)
        | exact balanced_of_unitBump h (delete_user_unitBump _ _ _)
        | exact balanced_of_unitBump h (list_users_unitBump _ _ (hL 0))

theorem rideDispatch_balanced (req : Rides.RideReq) (env : Nat → ExtResponse)
    (st : ServiceState) (hJ : ∀ i, ((env i).jsonBody).isSome = true)
    (h : metricsBalanced st.metrics) :
    metricsBalanced ((Rides.rideDispatch req env st).2.1).metrics := by
  obtain ⟨method, path, ij, body, s?, d?⟩ := req
  unfold Rides.rideDispatch
  dsimp only
  split
  · exact h
  · split <;>
      first
        | exact h
        | exact balanced_of_unitBump h (add_ride_unitBump _ _ _ _ (hJ 1))
        | exact balanced_of_unitBump h (list_upcoming_rides_unitBump _ _ _ _)
        | exact balanced_of_unitBump h (get_ride_unitBump _ _ _)
        | exact balanced_of_unitBump h (get_ride_count_unitBump _ _)
        | exact balanced_of_unitBump h (join_ride_unitBump _ _ _ _ _)
        | exact balanced_of_unitBump h (delete_ride_unitBump _ _ _)

/-- C7 (counterexample): (a) `GET /health` is a handler, yet it increments
nothing — after it runs from the zero state the metrics are still
`⟨0, 0, 0⟩`, so "every handler increments `total_requests`" is false;
(b) on `POST /api/v1/rides`, when the database write returns 200 with a body
on which `.json()` raises, the handler increments `successful_requests`
*before* rendering the payload and then the generic `except` increments
`failed_requests` too: the metrics end at `⟨1, 1, 1⟩`, where
`total ≠ successful + failed`; (c) on `GET /api/v1/users`, when the read
returns 200 with a body that parses to a bare number, the handler increments
`successful_requests` and then `len(users)` in the log line raises, so the
generic `except` increments `failed_requests` as well — again `⟨1, 1, 1⟩`. -/
theorem c7_metrics_counterexample :
    ((Users.userDispatch ⟨.GET, .health, true, none⟩ envMissThenHit
        ⟨0, ⟨0, 0, 0⟩⟩).2.1).metrics = ⟨0, 0, 0⟩
    ∧ ((Rides.rideDispatch
          ⟨.POST, .rides, true, some (postRideBody "01-01-2024:30-15-10"), none, none⟩
          (fun _ => ⟨200, "[\"alice\"]", none⟩) ⟨0, ⟨0, 0, 0⟩⟩).2.1).metrics
        = ⟨1, 1, 1⟩
    ∧ ((Users.userDispatch ⟨.GET, .users, true, none⟩
          (fun _ => ⟨200, "", some (.int 5)⟩) ⟨0, ⟨0, 0, 0⟩⟩).2.1).metrics
        = ⟨1, 1, 1⟩
    ∧ ¬ metricsBalanced ⟨1, 1, 1⟩ := by
  refine ⟨rfl, rfl, rfl, ?_⟩
  intro h
  simp [metricsBalanced] at h

/-- C7 (amended): the database-backed handlers (user create/delete/list;
ride create/list/get/count/join/delete) increment `total_requests` and then
exactly one of `successful_requests`/`failed_requests` once, on success and
on every error path — for ride creation provided the write response's body
parses as JSON, and for user listing provided a parsed read body supports
`len()` (is not a bare number); on those two paths the handler otherwise
increments both counters (see the counterexample).  The introspection
handlers (`/health`, `/metrics`, `/`, `/api/v1/_count`) and requests
rejected before the handler increment neither.  Consequently
`total_requests = successful_requests + failed_requests` holds after every
completely handled request, in both services, provided external JSON bodies
parse (ride service) and parsed bodies support `len()` (user service). -/
theorem c7_metrics_amended :
    (∀ (ij : Bool) (b : Option Dict) (env : Nat → ExtResponse) (m : ServiceMetrics),
        unitBump m (Users.add_user ij b env m).2.1)
    ∧ (∀ (u : String) (env : Nat → ExtResponse) (m : ServiceMetrics),
        unitBump m (Users.delete_user u env m).2.1)
    ∧ (∀ (env : Nat → ExtResponse) (m : ServiceMetrics),
        ((env 0).jsonBody).all pyHasLen = true → unitBump m (Users.list_users env m).2.1)
    ∧ (∀ (ij : Bool) (b : Option Dict) (env : Nat → ExtResponse) (m : ServiceMetrics),
        ((env 1).jsonBody).isSome = true → unitBump m (Rides.add_ride ij b env m).2.1)
    ∧ (∀ (s? d? : Option String) (env : Nat → ExtResponse) (m : ServiceMetrics),
        unitBump m (Rides.list_upcoming_rides s? d? env m).2.1)
    ∧ (∀ (rid : Nat) (env : Nat → ExtResponse) (m : ServiceMetrics),
        unitBump m (Rides.get_ride rid env m).2.1)
    ∧ (∀ (env : Nat → ExtResponse) (m : ServiceMetrics),
        unitBump m (Rides.get_ride_count env m).2.1)
    ∧ (∀ (rid : Nat) (ij : Bool) (b : Option Dict) (env : Nat → ExtResponse)
        (m : ServiceMetrics), unitBump m (Rides.join_ride rid ij b env m).2.1)
    ∧ (∀ (rid : Nat) (env : Nat → ExtResponse) (m : ServiceMetrics),
        unitBump m (Rides.delete_ride rid env m).2.1)
    ∧ (∀ (req : Users.UserReq) (env : Nat → ExtResponse) (st : ServiceState),
        (∀ i, ((env i).jsonBody).all pyHasLen = true) → metricsBalanced st.metrics →
        metricsBalanced ((Users.userDispatch req env st).2.1).metrics)
    ∧ (∀ (req : Rides.RideReq) (env : Nat → ExtResponse) (st : ServiceState),
        (∀ i, ((env i).jsonBody).isSome = true) → metricsBalanced st.metrics →
        metricsBalanced ((Rides.rideDispatch req env st).2.1).metrics) :=
  ⟨add_user_unitBump, delete_user_unitBump, list_users_unitBump,
   fun ij b env m hJ => add_ride_unitBump ij b env m hJ,
   list_upcoming_rides_unitBump, get_ride_unitBump, get_ride_count_unitBump,
   join_ride_unitBump, delete_ride_unitBump,
   userDispatch_balanced, rideDispatch_balanced⟩

/-- Witness for C7 (amended): concrete instances of the unit-bump facts and
the balance invariant at a concrete request, environment and state,
discharging the parseable-JSON and `len()`-support hypotheses. -/
theorem c7_metrics_amended_witness :
    unitBump ⟨0, 0, 0⟩
      (Users.add_user true (some [("username", .str "alice"), ("password", .str hexA40)])
        envMissThenHit ⟨0, 0, 0⟩).2.1
    ∧ unitBump ⟨0, 0, 0⟩
        (Users.list_users (fun _ => ⟨200, "", some (.arr [])⟩) ⟨0, 0, 0⟩).2.1
    ∧ unitBump ⟨2, 1, 1⟩ (Rides.add_ride true (some (postRideBody "01-01-2024:30-15-10"))
        rideEnvOk ⟨2, 1, 1⟩).2.1
    ∧ metricsBalanced
        ((Users.userDispatch
            ⟨.PUT, .users, true, some [("username", .str "alice"), ("password", .str hexA40)]⟩
            (fun _ => ⟨404, "", some (.arr [])⟩) ⟨0, ⟨2, 1, 1⟩⟩).2.1).metrics
    ∧ metricsBalanced
        ((Rides.rideDispatch
            ⟨.POST, .rides, true, some (postRideBody "01-01-2024:30-15-10"), none, none⟩
            rideEnvOk ⟨0, ⟨2, 1, 1⟩⟩).2.1).metrics :=
  ⟨c7_metrics_amended.1 true _ envMissThenHit ⟨0, 0, 0⟩,
   (c7_metrics_amended.2.2.1) (fun _ => ⟨200, "", some (.arr [])⟩) ⟨0, 0, 0⟩ rfl,
   (c7_metrics_amended.2.2.2.1) true _ rideEnvOk ⟨2, 1, 1⟩ rfl,
   (c7_metrics_amended.2.2.2.2.2.2.2.2.2.1) _ (fun _ => ⟨404, "", some (.arr [])⟩)
      ⟨0, ⟨2, 1, 1⟩⟩ (fun _ => rfl) rfl,
   (c7_metrics_amended.2.2.2.2.2.2.2.2.2.2) _ rideEnvOk ⟨0, ⟨2, 1, 1⟩⟩ (fun _ => rfl) rfl⟩
